import Mathlib

/-!
Shallow embedding of the `darjeeling_ardupilot` package (files `ardu.py`,
`simple.py`, `attack.py`, `executor.py`, `plugin.py`, `core.py`) together
with theorems settling the frozen claims about it.

Conventions of the embedding:
* Python floats are modelled as exact rationals (`ℚ`); the only float
  operation the claims touch is `math.sqrt` inside `distance_metres`,
  which is modelled exactly over the reals, with a decidable rational
  comparison proved equivalent to the real comparison.
* Stateful methods are modelled as explicit state-passing functions.
* Polling loops that read live vehicle state are modelled as functions of
  a finite trace of per-iteration observations; `none` means the trace
  was exhausted while the loop was still running.
* Fallible operations return `Option` or `Except`.
-/

namespace Ardu

/-- A MAVLink global location as exposed by `dronekit.LocationGlobal`
(latitude, longitude, altitude). -/
structure LocationGlobal where
  lat : ℚ
  lon : ℚ
  alt : ℚ
deriving Repr, DecidableEq

/-- `distance_metres` from `ardu.py` lines 28-42: ground distance between
two locations by the planar approximation
`sqrt(d_lat*d_lat + d_lon*d_lon) * 1.113195e5`.  The square root is taken
over the reals. -/
noncomputable def distance_metres (x y : LocationGlobal) : ℝ :=
  let d_lat : ℝ := (y.lat : ℝ) - (x.lat : ℝ)
  let d_lon : ℝ := (y.lon : ℝ) - (x.lon : ℝ)
  Real.sqrt ((d_lat * d_lat) + (d_lon * d_lon)) * 1.113195e5

/-- The radicand of `distance_metres` scaled by the square of the factor
`1.113195e5 = 1113195 / 10`: the square of the planar distance, as an
exact rational.  Used to give the monitor a decidable distance test;
`distance_lt_metres_iff` proves it equivalent to comparing
`distance_metres` itself. -/
def distance_metres_sq (x y : LocationGlobal) : ℚ :=
  let d_lat : ℚ := y.lat - x.lat
  let d_lon : ℚ := y.lon - x.lon
  ((d_lat * d_lat) + (d_lon * d_lon)) * (1113195 / 10) * (1113195 / 10)

/-- Decidable form of the comparison `distance_metres x y < t` (for a
positive threshold `t`), via squares. -/
def distance_lt_metres (x y : LocationGlobal) (t : ℚ) : Bool :=
  decide (distance_metres_sq x y < t * t)

/-- A `dronekit.Command`, with the fields in the order of the constructor
arguments used at `ardu.py` line 92:
`(target_system, target_component, seq, frame, command, current,
autocontinue, param1, param2, param3, param4, x, y, z)`. -/
structure Command where
  target_system : ℤ
  target_component : ℤ
  seq : ℤ
  frame : ℤ
  command : ℤ
  current : ℤ
  autocontinue : ℤ
  param1 : ℚ
  param2 : ℚ
  param3 : ℚ
  param4 : ℚ
  x : ℚ
  y : ℚ
  z : ℚ
deriving Repr, DecidableEq

/-- A raised Python `TimeoutError`: `msg = none` models `raise
TimeoutError` with no argument, `msg = some s` models
`raise TimeoutError(s)`. -/
structure TimeoutErr where
  msg : Option String
deriving Repr, DecidableEq

/-- Helper for modelling Python `int()` / `float()`: the value of a list
of decimal digit characters. -/
def digitsVal (cs : List Char) : ℕ :=
  cs.foldl (fun n c => 10 * n + (c.toNat - 48)) 0

/-- An optional sign followed by a non-empty run of decimal digits. -/
def pySignedDigits (cs : List Char) : Option ℤ :=
  let sd : ℤ × List Char :=
    match cs with
    | '-' :: r => (-1, r)
    | '+' :: r => (1, r)
    | _ => (1, cs)
  if sd.2.isEmpty || !sd.2.all Char.isDigit then none
  else some (sd.1 * (digitsVal sd.2 : ℤ))

/-- Python `int(s)` on a whitespace-free token. -/
def pyInt (s : String) : Option ℤ :=
  pySignedDigits s.toList

/-- Python `float(s)` on a whitespace-free token: optional sign, decimal
mantissa (digits, optionally a point and more digits), optional
exponent part.  The result is the exact rational value
`sign * mantissa * 10 ^ e`, assembled with `mkRat` from the integer
mantissa digits, the length of the fractional part and the exponent. -/
def pyFloat (s : String) : Option ℚ :=
  let cs := s.toList
  let sr : ℤ × List Char :=
    match cs with
    | '-' :: r => (-1, r)
    | '+' :: r => (1, r)
    | _ => (1, cs)
  let mant := sr.2.takeWhile (fun c => c != 'e' && c != 'E')
  (match sr.2.drop mant.length with
    | [] => some (0 : ℤ)
    | _ :: es => pySignedDigits es).bind fun e =>
  let ipart := mant.takeWhile Char.isDigit
  (match mant.drop ipart.length with
    | [] => some ([] : List Char)
    | '.' :: f => if f.all Char.isDigit then some f else none
    | _ => none).bind fun fpart =>
  if ipart.isEmpty && fpart.isEmpty then none
  else
    let num : ℤ := sr.1 * (digitsVal (ipart ++ fpart) : ℤ)
      * (if 0 ≤ e then (10 : ℤ) ^ e.toNat else 1)
    let den : ℕ := 10 ^ fpart.length
      * (if 0 ≤ e then 1 else (10 : ℕ) ^ (-e).toNat)
    some (mkRat num den)

/-- Helper for `pySplit`: split a character list on runs of whitespace,
accumulating the current token in reverse. -/
def wsSplitAux : List Char → List Char → List (List Char)
  | [], acc => if acc.isEmpty then [] else [acc.reverse]
  | c :: rest, acc =>
    if c.isWhitespace then
      if acc.isEmpty then wsSplitAux rest []
      else acc.reverse :: wsSplitAux rest []
    else wsSplitAux rest (c :: acc)

/-- Python `s.split()` (no argument): split on runs of whitespace,
discarding empty pieces. -/
def pySplit (s : String) : List String :=
  (wsSplitAux s.toList []).map List.asString

/-- The `Mission` record of `ardu.py` lines 45-65: `filename` and
`commands` are the constructor arguments; `home_location` and
`waypoints` are the derived fields computed by `__attrs_post_init__`. -/
structure Mission where
  filename : String
  commands : List Command
  home_location : ℚ × ℚ × ℚ × ℚ
  waypoints : Finset ℕ
deriving DecidableEq

/-- The `Mission` constructor: the `validate_commands` validator
(`ardu.py` lines 67-70) rejects an empty command list; otherwise
`__attrs_post_init__` (lines 56-65) derives `home_location` from
`commands[0]` (latitude `x`, longitude `y`, altitude `z`, heading `0.0`)
and `waypoints = frozenset(range(len(commands)))`. -/
def Mission.make (filename : String) (commands : List Command) : Except String Mission :=
  match commands with
  | [] => .error "mission must have at least one command"
  | cmd_home :: _ =>
    .ok { filename := filename
          commands := commands
          home_location := (cmd_home.x, cmd_home.y, cmd_home.z, 0)
          waypoints := Finset.range commands.length }

/-- `Mission.line_to_command` (`ardu.py` lines 81-95): split the line on
whitespace; parse `int(args[0])` (bound but unused), hard-code the
current-waypoint flag to `0`, parse `int(args[2])` and `int(args[3])` as
frame and command ids, hard-code autocontinue to `0`, parse
`args[4:11]` as seven floats, and build the `dronekit.Command`. -/
def Mission.line_to_command (s : String) : Option Command :=
  let args := pySplit s
  (args[0]?.bind pyInt).bind fun _arg_index =>
  (args[2]?.bind pyInt).bind fun arg_frame =>
  (args[3]?.bind pyInt).bind fun arg_cmd =>
  (args[4]?.bind pyFloat).bind fun p1 =>
  (args[5]?.bind pyFloat).bind fun p2 =>
  (args[6]?.bind pyFloat).bind fun p3 =>
  (args[7]?.bind pyFloat).bind fun p4 =>
  (args[8]?.bind pyFloat).bind fun x =>
  (args[9]?.bind pyFloat).bind fun y =>
  (args[10]?.bind pyFloat).bind fun z =>
  some (Command.mk 0 0 0 arg_frame arg_cmd 0 0 p1 p2 p3 p4 x y z)

/-- `Mission.from_file` (`ardu.py` lines 72-79), with the file contents
supplied as its list of lines (the `open`/`readlines` I/O is outside the
embedding): strip each line, discard the first (header) line, parse every
remaining line with `line_to_command`, and construct the `Mission`.
A parse failure on any line is fatal, as is the empty command list. -/
def Mission.from_file (filename : String) (file_lines : List String) : Except String Mission :=
  let stripped := file_lines.map String.trim
  match (stripped.drop 1).mapM Mission.line_to_command with
  | none => .error "failed to parse command line"
  | some cmds => Mission.make filename cmds

/-- The equality generated by `attr.s` for `Mission`: `commands` is
declared with `eq=False` (`ardu.py` line 50) and both derived fields with
`eq=False` (lines 52, 54), so the generated `__eq__` compares the
`filename` field only. -/
def Mission.attrs_eq (a b : Mission) : Bool :=
  a.filename == b.filename

/-- The tuple hashed by the `attr.s`-generated `__hash__` for the frozen
`Mission` class: fields with `hash=False` (`commands`, `home_location`,
`waypoints`) are excluded, leaving only `filename`.  Two missions are
hash-equal exactly when their keys are equal. -/
def Mission.attrs_hash_key (m : Mission) : String :=
  m.filename

/-- `raise TimeoutError` in `Mission.issue` (`ardu.py` lines 135, 142,
148, 156, 169): the setup-phase timeout carries no message. -/
def Mission.issue_timeout : TimeoutErr := { msg := none }

/-- `raise TimeoutError("mission did not complete before timeout")` in
`Mission.execute` (`ardu.py` line 235). -/
def Mission.mission_timeout : TimeoutErr :=
  { msg := some "mission did not complete before timeout" }

/-- One iteration of the polling loop of `Mission.execute` (`ardu.py`
lines 215-237) observes the vehicle's command cursor
(`connection.commands.next`, line 217) and, if the loop does not break,
checks the stopwatch (`timer.duration`, line 233). -/
structure ExecObs where
  cursor : ℕ
  duration : ℚ
deriving Repr, DecidableEq

/-- The polling loop of `Mission.execute` (`ardu.py` lines 215-237) over
a finite trace of per-iteration observations, carrying the `has_started`
flag: read the cursor; `has_started |= command_num != 0`; break (normal
return) once `has_started and command_num == 0`; otherwise raise
`mission_timeout` if `timer.duration > timeout_mission`; otherwise sleep
and iterate.  `none` means the trace ended with the loop still
running. -/
def Mission.executeLoopAux (timeout_mission : ℚ) :
    List ExecObs → Bool → Option (Except TimeoutErr Unit)
  | [], _ => none
  | o :: rest, has_started =>
    let hs := has_started || decide (o.cursor ≠ 0)
    if hs && decide (o.cursor = 0) then some (.ok ())
    else if timeout_mission < o.duration then some (.error Mission.mission_timeout)
    else Mission.executeLoopAux timeout_mission rest hs

/-- The `Mission.execute` polling loop started with `has_started =
False` and `command_num = 0` (`ardu.py` lines 201-202). -/
def Mission.execute_loop (timeout_mission : ℚ) (cursor_obs : List ExecObs) :
    Option (Except TimeoutErr Unit) :=
  Mission.executeLoopAux timeout_mission cursor_obs false

/-- `Mission.execute`'s effect on the connection's STATUSTEXT listener
list (`ardu.py` lines 207-241): `add_message_listener('STATUSTEXT', ...)`
at line 208 before the loop, and — on normal completion only — line 240,
which again calls `add_message_listener` (the log lines around it say
"removing"/"removed").  `dronekit`'s `add_message_listener` appends the
callback to the listener list, so each call increases the count by one.
`n0` is the count of STATUSTEXT listeners attached before the call; the
second component is the count when `execute` finishes. -/
def Mission.execute_statustext_listeners (timeout_mission : ℚ)
    (cursor_obs : List ExecObs) (n0 : ℕ) : Option (Except TimeoutErr Unit) × ℕ :=
  let n := n0 + 1
  match Mission.execute_loop timeout_mission cursor_obs with
  | some (.ok ()) => (some (.ok ()), n + 1)
  | r => (r, n)

/-- The commands `Mission.issue` sends to the vehicle once the waits
succeed (`ardu.py` lines 152-177): arm, clear the onboard command list,
add every mission command in order, upload, switch the mode, and send
one raw `command_long_encode` message (given by its target system and
component, command id, confirmation, and seven parameters). -/
inductive VehicleAction where
  | setArmed
  | clearCommands
  | addCommand (c : Command)
  | uploadCommands
  | setMode (mode : String)
  | sendCommandLong (target_system target_component command confirmation : ℕ)
      (p1 p2 p3 p4 p5 p6 p7 : ℚ)
deriving Repr, DecidableEq

/-- The action sequence of a successful `Mission.issue` (`ardu.py` lines
152-177); the final message is
`command_long_encode(0, 0, 300, 0, 1, len(self) + 1, 0, 0, 0, 0, 4)`
(lines 175-177), sent after `connection.mode = VehicleMode('AUTO')`
(line 173). -/
def Mission.issue_actions (m : Mission) : List VehicleAction :=
  [VehicleAction.setArmed, VehicleAction.clearCommands]
  ++ m.commands.map VehicleAction.addCommand
  ++ [VehicleAction.uploadCommands,
      VehicleAction.setMode "AUTO",
      VehicleAction.sendCommandLong 0 0 300 0
        1 ((m.commands.length : ℚ) + 1) 0 0 0 0 4]

/-- `ardu.py` line 182: the default value of `execute`'s
`timeout_setup` parameter. -/
def Mission.execute_default_timeout_setup : ℚ := 90

/-- `ardu.py` line 183: the default value of `execute`'s
`timeout_mission` parameter. -/
def Mission.execute_default_timeout_mission : ℚ := 120

/-- The budgets `Mission.execute` enforces: `timeout_setup` is passed to
`issue` (`ardu.py` line 197) and `timeout_mission` bounds the polling
loop (line 233). -/
def Mission.execute_budgets (timeout_setup timeout_mission : ℚ) : ℚ × ℚ :=
  (timeout_setup, timeout_mission)

/-- `SimpleMonitorStatus` (`simple.py` lines 18-24); both flags default
to `False`. -/
structure SimpleMonitorStatus where
  reached_home : Bool := false
  visited_all_wps : Bool := false
deriving Repr, DecidableEq

/-- `SimpleMonitorStatus.is_ok` (`simple.py` lines 23-24). -/
def SimpleMonitorStatus.is_ok (s : SimpleMonitorStatus) : Bool :=
  s.reached_home && s.visited_all_wps

/-- `DIST_APPROX_SAME = 3.0` (`simple.py` line 15). -/
def DIST_APPROX_SAME : ℚ := 3

/-- `SimpleMonitor` (`simple.py` lines 27-35): its status defaults to a
fresh `SimpleMonitorStatus` and its visited-waypoint set starts empty. -/
structure SimpleMonitor where
  mission : Mission
  status : SimpleMonitorStatus := {}
  visited_wps : Finset ℕ := ∅
deriving DecidableEq

/-- The `MISSION_CURRENT` listener registered by `SimpleMonitor.open`
(`simple.py` lines 50-54): each message adds its `seq` field to the
visited set. -/
def SimpleMonitor.listener_waypoint (m : SimpleMonitor) (seq : ℕ) : SimpleMonitor :=
  { m with visited_wps := insert seq m.visited_wps }

/-- The expected end location built by `notify_mission_end`
(`simple.py` lines 58-61) from the first three components of the
mission's `home_location`. -/
def SimpleMonitor.loc_expected (m : SimpleMonitor) : LocationGlobal :=
  { lat := m.mission.home_location.1
    lon := m.mission.home_location.2.1
    alt := m.mission.home_location.2.2.1 }

/-- `SimpleMonitor.notify_mission_end` (`simple.py` lines 56-79), with
the vehicle's reported global position passed explicitly: set
`_visited_all_wps` if the visited set equals the mission's waypoint set;
set `_reached_home` if the planar distance from the expected (home)
location to the actual location is below `DIST_APPROX_SAME`.  (The
decidable `distance_lt_metres` test is equivalent to
`distance_metres ... < DIST_APPROX_SAME` by `distance_lt_metres_iff`.) -/
def SimpleMonitor.notify_mission_end (m : SimpleMonitor)
    (loc_actual : LocationGlobal) : SimpleMonitor :=
  let st := m.status
  let st := if m.visited_wps = m.mission.waypoints
            then { st with visited_all_wps := true } else st
  let st := if distance_lt_metres m.loc_expected loc_actual DIST_APPROX_SAME
            then { st with reached_home := true } else st
  { m with status := st }

/-- `Monitor.is_ok` (`core.py` lines 40-41): delegate to the status. -/
def SimpleMonitor.is_ok (m : SimpleMonitor) : Bool :=
  m.status.is_ok

/-- `Attack` (`attack.py` lines 14-18). -/
structure Attack where
  parameter : String
  value : ℤ
  waypoint : ℕ
deriving Repr, DecidableEq

/-- One iteration of the `wait_loop` thread body of
`Attack.wait_and_send` (`attack.py` lines 39-50): either
`event_stop.wait(0.1)` returned true (`stopSignal`), or reading
`connection.commands.next` raised `dronekit.TimeoutError`
(`connLost`), or the read yielded the cursor value (`cursor n`). -/
inductive WatchObs where
  | stopSignal
  | cursor (n : ℕ)
  | connLost
deriving Repr, DecidableEq

/-- The `wait_loop` of `Attack.wait_and_send` (`attack.py` lines 39-50)
over a finite trace of per-iteration observations.  On `stopSignal` or
`connLost` the loop returns without writing; on `cursor n` with
`n >= self.waypoint` it performs the parameter write of `_send`
(lines 27-33) and returns.  The first component counts the parameter
writes performed; the second is the part of the trace left unconsumed
when the loop returned (the loop consumed everything if it never
returned). -/
def Attack.wait_loop (a : Attack) : List WatchObs → ℕ × List WatchObs
  | [] => (0, [])
  | WatchObs.stopSignal :: rest => (0, rest)
  | WatchObs.connLost :: rest => (0, rest)
  | WatchObs.cursor n :: rest =>
    if a.waypoint ≤ n then (1, rest) else a.wait_loop rest

/-- The externally visible steps of `run_with_monitor` (`executor.py`
lines 97-119) from the `mission.execute` call onward, as a function of
the outcome of `execute`: on `TimeoutError` the except-branch only sets
`passed = False` and the stopwatch is stopped; on success the
else-branch calls `monitor.notify_mission_end()`, reads
`monitor.is_ok()`, then `time.sleep(0.5)`, and the stopwatch is
stopped. -/
inductive RunEvent where
  | executeMission
  | notifyMissionEnd
  | readVerdict
  | settleSleep (secs : ℚ)
  | stopTimer
deriving Repr, DecidableEq

/-- The event sequence of `run_with_monitor` (`executor.py` lines
100-113) as a function of the result of `mission.execute`. -/
def run_with_monitor_events : Except TimeoutErr Unit → List RunEvent
  | .error _ => [RunEvent.executeMission, RunEvent.stopTimer]
  | .ok _ => [RunEvent.executeMission, RunEvent.notifyMissionEnd,
              RunEvent.readVerdict, RunEvent.settleSleep (mkRat 1 2),
              RunEvent.stopTimer]

/-- The timeout budgets with which `run_with_monitor` runs
`Mission.execute` (`executor.py` line 102:
`mission.execute(vehicle, timeout_mission=timeout)`): the trial's
`timeout` is passed as `timeout_mission` only, so `timeout_setup`
resolves to its default. -/
def run_with_monitor_execute_budgets (timeout : ℚ) : ℚ × ℚ :=
  Mission.execute_budgets Mission.execute_default_timeout_setup timeout

/-- A sample home command (frame 0, NAV_WAYPOINT id 16) used as concrete
input for witnesses and counterexamples. -/
def sample_cmd_home : Command :=
  { target_system := 0, target_component := 0, seq := 0
    frame := 0, command := 16, current := 0, autocontinue := 0
    param1 := 0, param2 := 0, param3 := 0, param4 := 0
    x := -35, y := 149, z := 0 }

/-- A second sample command differing from `sample_cmd_home`. -/
def sample_cmd_wp : Command :=
  { target_system := 0, target_component := 0, seq := 0
    frame := 3, command := 16, current := 0, autocontinue := 0
    param1 := 0, param2 := 0, param3 := 0, param4 := 0
    x := -36, y := 150, z := 10 }

/-- The mission built by `Mission.make "mission.txt" [sample_cmd_home]`. -/
def sample_mission_one : Mission :=
  { filename := "mission.txt"
    commands := [sample_cmd_home]
    home_location := (-35, 149, 0, 0)
    waypoints := Finset.range 1 }

/-- The mission built by
`Mission.make "mission.txt" [sample_cmd_home, sample_cmd_wp]`:
same filename as `sample_mission_one`, different command list. -/
def sample_mission_two : Mission :=
  { filename := "mission.txt"
    commands := [sample_cmd_home, sample_cmd_wp]
    home_location := (-35, 149, 0, 0)
    waypoints := Finset.range 2 }

/-- A monitor on `sample_mission_one` whose listener saw waypoint 0. -/
def sample_monitor : SimpleMonitor :=
  { mission := sample_mission_one
    visited_wps := Finset.range 1 }

/-- The home location of `sample_mission_one` as a `LocationGlobal`. -/
def sample_home_loc : LocationGlobal :=
  { lat := -35, lon := 149, alt := 0 }

/-- Test for the raw `command_long_encode` sends among the actions of
`Mission.issue`. -/
def VehicleAction.isCommandLong : VehicleAction → Bool
  | VehicleAction.sendCommandLong _ _ _ _ _ _ _ _ _ _ _ => true
  | _ => false

/-- A sample WPL command line (fields: index, current flag, frame,
command id, four parameters, x, y, z). -/
def sample_wpl_line : String := "0 0 3 16 0 0 0 0 -35 149 584"

/-- The same WPL line as `sample_wpl_line` except for the current-flag
field (second field). -/
def sample_wpl_line_alt : String := "0 1 3 16 0 0 0 0 -35 149 584"

/-- The command parsed from `sample_wpl_line`. -/
def sample_parsed_cmd : Command :=
  { target_system := 0, target_component := 0, seq := 0
    frame := 3, command := 16, current := 0, autocontinue := 0
    param1 := 0, param2 := 0, param3 := 0, param4 := 0
    x := -35, y := 149, z := 584 }

end Ardu

namespace Ardu

theorem distance_lt_metres_iff (x y : LocationGlobal) (t : ℚ) (ht : 0 < t) :
    distance_lt_metres x y t = true ↔ distance_metres x y < (t : ℝ) := by
  have hc : (0 : ℝ) < 1.113195e5 := by norm_num
  have htR : (0 : ℝ) < (t : ℝ) := by exact_mod_cast ht
  simp only [distance_lt_metres, distance_metres, distance_metres_sq]
  rw [decide_eq_true_iff]
  set q : ℚ := ((y.lat - x.lat) * (y.lat - x.lat) + (y.lon - x.lon) * (y.lon - x.lon)) with hq
  have hcast : ((y.lat : ℝ) - (x.lat : ℝ)) * ((y.lat : ℝ) - (x.lat : ℝ))
      + ((y.lon : ℝ) - (x.lon : ℝ)) * ((y.lon : ℝ) - (x.lon : ℝ)) = ((q : ℚ) : ℝ) := by
    rw [hq]; push_cast; ring
  rw [hcast]
  have hdiv : (0 : ℝ) < (t : ℝ) / 1.113195e5 := div_pos htR hc
  have h1 : Real.sqrt ((q : ℚ) : ℝ) * 1.113195e5 < (t : ℝ)
      ↔ Real.sqrt ((q : ℚ) : ℝ) < (t : ℝ) / 1.113195e5 := (lt_div_iff₀ hc).symm
  rw [h1, Real.sqrt_lt' hdiv, div_pow, lt_div_iff₀ (by positivity : (0:ℝ) < 1.113195e5 ^ 2)]
  have : (1.113195e5 : ℝ) = ((1113195 / 10 : ℚ) : ℝ) := by norm_num
  rw [this]
  constructor
  · intro h
    calc ((q : ℚ) : ℝ) * ((1113195 / 10 : ℚ) : ℝ) ^ 2
        = (((q * (1113195 / 10) * (1113195 / 10) : ℚ)) : ℝ) := by push_cast; ring
      _ < (((t * t) : ℚ) : ℝ) := by exact_mod_cast h
      _ = (t : ℝ) ^ 2 := by push_cast; ring
  · intro h
    have : (((q * (1113195 / 10) * (1113195 / 10) : ℚ)) : ℝ) < (((t * t) : ℚ) : ℝ) := by
      calc (((q * (1113195 / 10) * (1113195 / 10) : ℚ)) : ℝ)
          = ((q : ℚ) : ℝ) * ((1113195 / 10 : ℚ) : ℝ) ^ 2 := by push_cast; ring
        _ < (t : ℝ) ^ 2 := h
        _ = (((t * t) : ℚ) : ℝ) := by push_cast; ring
    exact_mod_cast this

theorem sample_mission_one_make :
    Mission.make "mission.txt" [sample_cmd_home] = .ok sample_mission_one := rfl

theorem sample_mission_two_make :
    Mission.make "mission.txt" [sample_cmd_home, sample_cmd_wp] = .ok sample_mission_two := rfl

/-- C1: after `notify_mission_end` has been called on a monitor whose
status is still the fresh default, `is_ok()` is true iff the visited
waypoint set equals the mission's full waypoint-id set (exact set
equality) and the planar distance from the vehicle's final reported
position to the mission's home location is strictly below 3.0; in
particular it is false when the visited set is a strict subset or the
distance is at least 3.0. -/
theorem simpleMonitor_is_ok_iff_visited_and_near_home (m : SimpleMonitor)
    (loc : LocationGlobal) (h : m.status = {}) :
    (m.notify_mission_end loc).is_ok = true ↔
      (m.visited_wps = m.mission.waypoints
        ∧ distance_metres m.loc_expected loc < (3 : ℝ)) := by
  have hd : distance_lt_metres m.loc_expected loc DIST_APPROX_SAME = true
      ↔ distance_metres m.loc_expected loc < (3 : ℝ) := by
    have h3 : ((DIST_APPROX_SAME : ℚ) : ℝ) = (3 : ℝ) := by norm_num [DIST_APPROX_SAME]
    rw [distance_lt_metres_iff _ _ _ (by norm_num [DIST_APPROX_SAME]), h3]
  simp only [SimpleMonitor.notify_mission_end, SimpleMonitor.is_ok,
    SimpleMonitorStatus.is_ok, h]
  by_cases h1 : m.visited_wps = m.mission.waypoints
    <;> by_cases h2 : distance_lt_metres m.loc_expected loc DIST_APPROX_SAME = true
    <;> simp [h1, h2, ← hd]

/-- Witness for C1 at a concrete monitor and final location. -/
theorem simpleMonitor_is_ok_iff_witness :
    sample_monitor.status = {}
    ∧ ((sample_monitor.notify_mission_end sample_home_loc).is_ok = true ↔
        (sample_monitor.visited_wps = sample_monitor.mission.waypoints
          ∧ distance_metres sample_monitor.loc_expected sample_home_loc < (3 : ℝ))) :=
  ⟨rfl, simpleMonitor_is_ok_iff_visited_and_near_home sample_monitor sample_home_loc rfl⟩

/-- C4 counterexample: two missions with the same filename but different
command lists are equal under the attrs-generated equality, because
`commands` is declared with `eq=False`; this refutes value-based identity
on `source_path` and `commands`. -/
theorem mission_attrs_eq_ignores_commands :
    Mission.attrs_eq sample_mission_one sample_mission_two = true
    ∧ sample_mission_one.commands ≠ sample_mission_two.commands :=
  ⟨rfl, by decide⟩

/-- C4 amended: `Mission` identity is value-based on `filename`
(`source_path`) only — equality and the hash key compare the filename
and exclude `commands` as well as the derived fields. -/
theorem mission_identity_filename_only (a b : Mission) :
    (Mission.attrs_eq a b = true ↔ a.filename = b.filename)
    ∧ (Mission.attrs_hash_key a = Mission.attrs_hash_key b ↔ a.filename = b.filename) := by
  refine ⟨?_, Iff.rfl⟩
  simp [Mission.attrs_eq]

/-- C6 counterexample: for a trial timeout of 7, `run_with_monitor`
calls `Mission.execute` with a setup budget of 90 (the hard-coded
default), not a value derived from the trial's configured timeout. -/
theorem run_with_monitor_setup_budget_not_trial :
    run_with_monitor_execute_budgets 7 = (90, 7)
    ∧ (run_with_monitor_execute_budgets 7).1 ≠ 7 :=
  ⟨rfl, by decide⟩

/-- C6 amended: `run_with_monitor` passes the trial's timeout as the
mission-phase budget only; the setup-phase budget is `execute`'s default
of 90 seconds, independent of the trial configuration. -/
theorem run_with_monitor_trial_timeout_mission_only (t : ℚ) :
    run_with_monitor_execute_budgets t = (Mission.execute_default_timeout_setup, t)
    ∧ (run_with_monitor_execute_budgets t).2 = t
    ∧ (run_with_monitor_execute_budgets t).1 = 90 :=
  ⟨rfl, rfl, rfl⟩

/-- C7: after switching the vehicle mode to AUTO, `Mission.issue` sends
exactly one raw command-long message — the mission-start command (id
300) whose waypoint-index argument is `len(commands) + 1` — and that
message immediately follows the mode switch. -/
theorem mission_issue_mission_start_after_auto (m : Mission) :
    (∃ l, Mission.issue_actions m
        = l ++ [VehicleAction.setMode "AUTO",
            VehicleAction.sendCommandLong 0 0 300 0
              1 ((m.commands.length : ℚ) + 1) 0 0 0 0 4])
    ∧ (Mission.issue_actions m).filter VehicleAction.isCommandLong
        = [VehicleAction.sendCommandLong 0 0 300 0
            1 ((m.commands.length : ℚ) + 1) 0 0 0 0 4] := by
  constructor
  · refine ⟨[VehicleAction.setArmed, VehicleAction.clearCommands]
      ++ m.commands.map VehicleAction.addCommand
      ++ [VehicleAction.uploadCommands], ?_⟩
    simp [Mission.issue_actions]
  · have hmap : ∀ cs : List Command,
        (cs.map VehicleAction.addCommand).filter VehicleAction.isCommandLong = [] := by
      intro cs
      induction cs with
      | nil => rfl
      | cons c cs ih => simp [VehicleAction.isCommandLong, ih]
    simp [Mission.issue_actions, List.filter_append, hmap, VehicleAction.isCommandLong]

/-- C8 (code bug): on a normally completing run, `Mission.execute`
finishes with two STATUSTEXT listeners attached instead of zero — the
"removing" step at `ardu.py` line 240 calls `add_message_listener`
again instead of removing the listener attached at line 208. -/
theorem mission_execute_statustext_listener_left_attached :
    Mission.execute_statustext_listeners 10 [⟨1, 1⟩, ⟨0, 2⟩] 0 = (some (.ok ()), 2)
    ∧ (Mission.execute_statustext_listeners 10 [⟨1, 1⟩, ⟨0, 2⟩] 0).2 ≠ 0 :=
  ⟨rfl, by decide⟩

/-- C9: the `Mission` constructor rejects an empty command sequence with
the validator error, so `from_file` fails on a file consisting of only a
header line (and on an empty file), since the first line is discarded
and the rest form the command list. -/
theorem mission_rejects_empty_commands (fn hdr : String) :
    Mission.make fn [] = .error "mission must have at least one command"
    ∧ Mission.from_file fn [hdr] = .error "mission must have at least one command"
    ∧ Mission.from_file fn [] = .error "mission must have at least one command" :=
  ⟨rfl, rfl, rfl⟩

theorem executeLoopAux_error_of_no_zero (t : ℚ) (tr : List ExecObs) :
    ∀ hs : Bool, (∀ o ∈ tr, o.cursor ≠ 0) → (∃ o ∈ tr, t < o.duration) →
      Mission.executeLoopAux t tr hs = some (.error Mission.mission_timeout) := by
  induction tr with
  | nil => intro hs _ hex; simp at hex
  | cons o rest ih =>
    intro hs hnz hex
    have hz : o.cursor ≠ 0 := hnz o (List.mem_cons_self o rest)
    by_cases hd : t < o.duration
    · simp [Mission.executeLoopAux, hz, hd]
    · have hex' : ∃ o' ∈ rest, t < o'.duration := by
        rcases hex with ⟨o', ho', hto'⟩
        rcases List.mem_cons.mp ho' with rfl | h'
        · exact absurd hto' hd
        · exact ⟨o', h', hto'⟩
      have hnz' : ∀ o' ∈ rest, o'.cursor ≠ 0 :=
        fun o' h' => hnz o' (List.mem_cons_of_mem _ h')
      simp [Mission.executeLoopAux, hz, hd]
      exact ih _ hnz' hex'

theorem executeLoop_error_of_never_return (t : ℚ) (tr : List ExecObs) :
    (∀ pre o post, tr = pre ++ o :: post → o.cursor = 0 → ∀ o' ∈ pre, o'.cursor = 0) →
    (∃ o ∈ tr, t < o.duration) →
    Mission.execute_loop t tr = some (.error Mission.mission_timeout) := by
  induction tr with
  | nil => intro _ hex; simp at hex
  | cons o rest ih =>
    intro H hex
    by_cases hz : o.cursor = 0
    · by_cases hd : t < o.duration
      · simp [Mission.execute_loop, Mission.executeLoopAux, hz, hd]
      · have hex' : ∃ o' ∈ rest, t < o'.duration := by
          rcases hex with ⟨o', ho', hto'⟩
          rcases List.mem_cons.mp ho' with rfl | h'
          · exact absurd hto' hd
          · exact ⟨o', h', hto'⟩
        have H' : ∀ pre o' post, rest = pre ++ o' :: post → o'.cursor = 0 →
            ∀ o'' ∈ pre, o''.cursor = 0 := by
          intro pre o' post heq hc o'' ho''
          exact H (o :: pre) o' post (by simp [heq]) hc o'' (List.mem_cons_of_mem _ ho'')
        have hrest := ih H' hex'
        simp only [Mission.execute_loop] at hrest ⊢
        simpa [Mission.executeLoopAux, hz, hd] using hrest
    · have hnz : ∀ o' ∈ rest, o'.cursor ≠ 0 := by
        intro o' ho' hc0
        obtain ⟨s, u, hsu⟩ := List.append_of_mem ho'
        exact hz (H (o :: s) o' u (by simp [hsu]) hc0 o (List.mem_cons_self _ _))
      by_cases hd : t < o.duration
      · simp [Mission.execute_loop, Mission.executeLoopAux, hz, hd]
      · have hex' : ∃ o' ∈ rest, t < o'.duration := by
          rcases hex with ⟨o', ho', hto'⟩
          rcases List.mem_cons.mp ho' with rfl | h'
          · exact absurd hto' hd
          · exact ⟨o', h', hto'⟩
        have hrest := executeLoopAux_error_of_no_zero t rest true hnz hex'
        simp only [Mission.execute_loop]
        simpa [Mission.executeLoopAux, hz, hd] using hrest

theorem executeLoopAux_ok_origin (t : ℚ) (tr : List ExecObs) :
    ∀ hs : Bool, Mission.executeLoopAux t tr hs = some (.ok ()) →
      ∃ (j : ℕ) (o : ExecObs), tr[j]? = some o ∧ o.cursor = 0
        ∧ (hs = true ∨ ∃ (i : ℕ) (o' : ExecObs),
            i < j ∧ tr[i]? = some o' ∧ o'.cursor ≠ 0) := by
  induction tr with
  | nil => intro hs h; simp [Mission.executeLoopAux] at h
  | cons o rest ih =>
    intro hs h
    by_cases hz : o.cursor = 0
    · by_cases hhs : hs = true
      · exact ⟨0, o, by simp, hz, Or.inl hhs⟩
      · have hs0 : hs = false := by
          cases hs
          · rfl
          · exact absurd rfl hhs
        subst hs0
        by_cases hd : t < o.duration
        · simp [Mission.executeLoopAux, hz, hd] at h
        · simp [Mission.executeLoopAux, hz, hd] at h
          obtain ⟨j, o', hj, hc, hdisj⟩ := ih false h
          refine ⟨j + 1, o', by simpa using hj, hc, ?_⟩
          rcases hdisj with hfalse | ⟨i, o'', hij, hi, hnz⟩
          · exact absurd hfalse (by simp)
          · exact Or.inr ⟨i + 1, o'', by omega, by simpa using hi, hnz⟩
    · by_cases hd : t < o.duration
      · simp [Mission.executeLoopAux, hz, hd] at h
      · simp [Mission.executeLoopAux, hz, hd] at h
        obtain ⟨j, o', hj, hc, hdisj⟩ := ih true h
        refine ⟨j + 1, o', by simpa using hj, hc, Or.inr ?_⟩
        exact ⟨0, o, by omega, by simp, hz⟩

/-- C2: the `Mission.execute` polling loop (a) raises the mission
timeout, whose message is "mission did not complete before timeout" and
which differs from the bare setup `TimeoutError`, whenever the observed
cursor never leaves zero and the deadline passes; (b) raises the same
error whenever the cursor never returns to zero after leaving it (every
zero observation has an all-zero history) and the deadline passes; and
(c) returns normally only when the cursor is observed at zero strictly
after a nonzero observation. -/
theorem mission_execute_loop_timeout_behavior (t : ℚ) (tr : List ExecObs) :
    ((∀ o ∈ tr, o.cursor = 0) → (∃ o ∈ tr, t < o.duration) →
        Mission.execute_loop t tr = some (.error Mission.mission_timeout))
    ∧ ((∀ pre o post, tr = pre ++ o :: post → o.cursor = 0 → ∀ o' ∈ pre, o'.cursor = 0) →
        (∃ o ∈ tr, t < o.duration) →
        Mission.execute_loop t tr = some (.error Mission.mission_timeout))
    ∧ (Mission.execute_loop t tr = some (.ok ()) →
        ∃ (j : ℕ) (o : ExecObs), tr[j]? = some o ∧ o.cursor = 0
          ∧ ∃ (i : ℕ) (o' : ExecObs), i < j ∧ tr[i]? = some o' ∧ o'.cursor ≠ 0)
    ∧ Mission.mission_timeout.msg = some "mission did not complete before timeout"
    ∧ Mission.mission_timeout ≠ Mission.issue_timeout := by
  refine ⟨?_, executeLoop_error_of_never_return t tr, ?_, rfl, by decide⟩
  · intro hz hex
    refine executeLoop_error_of_never_return t tr ?_ hex
    intro pre o post heq _ o' ho'
    exact hz o' (by rw [heq]; exact List.mem_append_left _ ho')
  · intro h
    obtain ⟨j, o, hj, hc, hdisj⟩ := executeLoopAux_ok_origin t tr false h
    rcases hdisj with hfalse | hrest
    · exact absurd hfalse (by simp)
    · exact ⟨j, o, hj, hc, hrest⟩

/-- Witness for C2 at concrete traces: a stalled all-zero trace and a
started-but-never-finished trace both yield the mission timeout, and a
normally completing trace exhibits a zero observation after a nonzero
one. -/
theorem mission_execute_loop_timeout_behavior_witness :
    Mission.execute_loop 10 [⟨0, 5⟩, ⟨0, 11⟩] = some (.error Mission.mission_timeout)
    ∧ Mission.execute_loop 10 [⟨3, 5⟩, ⟨4, 11⟩] = some (.error Mission.mission_timeout)
    ∧ (∃ (j : ℕ) (o : ExecObs), ([⟨1, 1⟩, ⟨0, 2⟩] : List ExecObs)[j]? = some o ∧ o.cursor = 0
        ∧ ∃ (i : ℕ) (o' : ExecObs), i < j
            ∧ ([⟨1, 1⟩, ⟨0, 2⟩] : List ExecObs)[i]? = some o' ∧ o'.cursor ≠ 0) := by
  refine ⟨(mission_execute_loop_timeout_behavior 10 _).1 (by decide) (by decide),
          (mission_execute_loop_timeout_behavior 10 _).2.1 ?_ (by decide),
          (mission_execute_loop_timeout_behavior 10 _).2.2.1 rfl⟩
  intro pre o post heq hc
  have ho : o ∈ ([⟨3, 5⟩, ⟨4, 11⟩] : List ExecObs) := by
    rw [heq]; exact List.mem_append_right _ (List.mem_cons_self _ _)
  rcases List.mem_cons.mp ho with rfl | ho'
  · simp at hc
  rcases List.mem_cons.mp ho' with rfl | ho''
  · simp at hc
  · simp at ho''

theorem wait_loop_writes_le_one (a : Attack) (tr : List WatchObs) :
    (a.wait_loop tr).1 ≤ 1 := by
  induction tr with
  | nil => simp [Attack.wait_loop]
  | cons o rest ih =>
    cases o with
    | stopSignal => simp [Attack.wait_loop]
    | connLost => simp [Attack.wait_loop]
    | cursor n =>
      by_cases hn : a.waypoint ≤ n
      · simp [Attack.wait_loop, hn]
      · simp only [Attack.wait_loop, if_neg hn]
        exact ih

theorem wait_loop_sends_at_trigger (a : Attack) (pre rest : List WatchObs) (n : ℕ) :
    (∀ o ∈ pre, ∃ m, o = WatchObs.cursor m ∧ m < a.waypoint) → a.waypoint ≤ n →
    a.wait_loop (pre ++ WatchObs.cursor n :: rest) = (1, rest) := by
  induction pre with
  | nil => intro _ hn; simp [Attack.wait_loop, hn]
  | cons o pre ih =>
    intro hpre hn
    obtain ⟨m, rfl, hm⟩ := hpre o (List.mem_cons_self o pre)
    simp only [List.cons_append, Attack.wait_loop, if_neg (Nat.not_le.mpr hm)]
    exact ih (fun o' ho' => hpre o' (List.mem_cons_of_mem _ ho')) hn

theorem wait_loop_no_write_on_connlost (a : Attack) (pre rest : List WatchObs) :
    (∀ o ∈ pre, ∃ m, o = WatchObs.cursor m ∧ m < a.waypoint) →
    a.wait_loop (pre ++ WatchObs.connLost :: rest) = (0, rest) := by
  induction pre with
  | nil => intro _; simp [Attack.wait_loop]
  | cons o pre ih =>
    intro hpre
    obtain ⟨m, rfl, hm⟩ := hpre o (List.mem_cons_self o pre)
    simp only [List.cons_append, Attack.wait_loop, if_neg (Nat.not_le.mpr hm)]
    exact ih (fun o' ho' => hpre o' (List.mem_cons_of_mem _ ho'))

theorem wait_loop_write_origin (a : Attack) (tr : List WatchObs) :
    (a.wait_loop tr).1 = 1 →
    ∃ pre n rest, tr = pre ++ WatchObs.cursor n :: rest ∧ a.waypoint ≤ n
      ∧ (∀ o ∈ pre, ∃ m, o = WatchObs.cursor m ∧ m < a.waypoint)
      ∧ a.wait_loop tr = (1, rest) := by
  induction tr with
  | nil => intro h; simp [Attack.wait_loop] at h
  | cons o rest ih =>
    intro h
    cases o with
    | stopSignal => simp [Attack.wait_loop] at h
    | connLost => simp [Attack.wait_loop] at h
    | cursor n =>
      by_cases hn : a.waypoint ≤ n
      · exact ⟨[], n, rest, rfl, hn, by simp, by simp [Attack.wait_loop, hn]⟩
      · have h' : (a.wait_loop rest).1 = 1 := by
          simpa [Attack.wait_loop, if_neg hn] using h
        obtain ⟨pre, n', rest', heq, hn', hpre, hval⟩ := ih h'
        refine ⟨WatchObs.cursor n :: pre, n', rest', by simp [heq], hn', ?_, ?_⟩
        · intro o' ho'
          rcases List.mem_cons.mp ho' with rfl | ho''
          · exact ⟨n, rfl, Nat.not_le.mp hn⟩
          · exact hpre o' ho''
        · simp only [Attack.wait_loop, if_neg hn]
          exact hval

/-- C3: the attack watcher performs at most one parameter write in any
run; it writes exactly once, and then stops watching, at the first
iteration whose cursor reading reaches or passes the trigger waypoint
when every earlier iteration read a below-trigger cursor; it never
writes when connection loss occurs before the trigger is reached; and
any run that wrote did so at such a first-trigger iteration and stopped
immediately afterwards. -/
theorem attack_wait_loop_one_shot (a : Attack) (tr pre rest : List WatchObs) (n : ℕ) :
    ((a.wait_loop tr).1 ≤ 1)
    ∧ ((∀ o ∈ pre, ∃ m, o = WatchObs.cursor m ∧ m < a.waypoint) → a.waypoint ≤ n →
        a.wait_loop (pre ++ WatchObs.cursor n :: rest) = (1, rest))
    ∧ ((∀ o ∈ pre, ∃ m, o = WatchObs.cursor m ∧ m < a.waypoint) →
        a.wait_loop (pre ++ WatchObs.connLost :: rest) = (0, rest))
    ∧ ((a.wait_loop tr).1 = 1 →
        ∃ pre' n' rest', tr = pre' ++ WatchObs.cursor n' :: rest' ∧ a.waypoint ≤ n'
          ∧ (∀ o ∈ pre', ∃ m, o = WatchObs.cursor m ∧ m < a.waypoint)
          ∧ a.wait_loop tr = (1, rest')) :=
  ⟨wait_loop_writes_le_one a tr,
   wait_loop_sends_at_trigger a pre rest n,
   wait_loop_no_write_on_connlost a pre rest,
   wait_loop_write_origin a tr⟩

/-- Witness for C3 at a concrete attack (trigger waypoint 2) and
concrete observation traces. -/
theorem attack_wait_loop_one_shot_witness :
    (Attack.wait_loop ⟨"P", 1, 2⟩ [WatchObs.cursor 5, WatchObs.stopSignal]).1 ≤ 1
    ∧ Attack.wait_loop ⟨"P", 1, 2⟩
        ([WatchObs.cursor 0, WatchObs.cursor 1] ++ WatchObs.cursor 2 :: [WatchObs.stopSignal])
        = (1, [WatchObs.stopSignal])
    ∧ Attack.wait_loop ⟨"P", 1, 2⟩
        ([WatchObs.cursor 0, WatchObs.cursor 1] ++ WatchObs.connLost :: [WatchObs.stopSignal])
        = (0, [WatchObs.stopSignal])
    ∧ (∃ pre' n' rest',
        ([WatchObs.cursor 5, WatchObs.stopSignal] : List WatchObs)
          = pre' ++ WatchObs.cursor n' :: rest'
        ∧ (Attack.mk "P" 1 2).waypoint ≤ n'
        ∧ (∀ o ∈ pre', ∃ m, o = WatchObs.cursor m ∧ m < (Attack.mk "P" 1 2).waypoint)
        ∧ Attack.wait_loop ⟨"P", 1, 2⟩ [WatchObs.cursor 5, WatchObs.stopSignal]
            = (1, rest')) := by
  have hpre : ∀ o ∈ ([WatchObs.cursor 0, WatchObs.cursor 1] : List WatchObs),
      ∃ m, o = WatchObs.cursor m ∧ m < (Attack.mk "P" 1 2).waypoint := by
    intro o ho
    rcases List.mem_cons.mp ho with rfl | ho'
    · exact ⟨0, rfl, by decide⟩
    rcases List.mem_cons.mp ho' with rfl | ho''
    · exact ⟨1, rfl, by decide⟩
    · simp at ho''
  exact ⟨(attack_wait_loop_one_shot ⟨"P", 1, 2⟩
            [WatchObs.cursor 5, WatchObs.stopSignal] [] [] 0).1,
         (attack_wait_loop_one_shot ⟨"P", 1, 2⟩ []
            [WatchObs.cursor 0, WatchObs.cursor 1] [WatchObs.stopSignal] 2).2.1
            hpre (by decide),
         (attack_wait_loop_one_shot ⟨"P", 1, 2⟩ []
            [WatchObs.cursor 0, WatchObs.cursor 1] [WatchObs.stopSignal] 2).2.2.1 hpre,
         (attack_wait_loop_one_shot ⟨"P", 1, 2⟩
            [WatchObs.cursor 5, WatchObs.stopSignal] [] [] 0).2.2.2 rfl⟩

/-- C5 counterexample: in the success branch of `run_with_monitor` the
verdict read via `is_ok()` occurs strictly before the 0.5-second settle
delay, not after it, refuting the claimed ordering. -/
theorem run_with_monitor_verdict_read_before_settle :
    (run_with_monitor_events (.ok ())).count RunEvent.readVerdict = 1
    ∧ (run_with_monitor_events (.ok ())).count (RunEvent.settleSleep (mkRat 1 2)) = 1
    ∧ (run_with_monitor_events (.ok ())).indexOf RunEvent.readVerdict
        < (run_with_monitor_events (.ok ())).indexOf (RunEvent.settleSleep (mkRat 1 2)) := by
  refine ⟨?_, ?_, ?_⟩ <;> decide

/-- C5 amended: the mission-end notification is delivered only when
`Mission.execute` returned successfully, and in that case the order of
steps is: execute, notify, read the verdict via `is_ok()`, sleep the
fixed 0.5-second settle delay, stop the stopwatch — so the settle delay
follows the verdict read instead of preceding it. -/
theorem run_with_monitor_event_order (r : Except TimeoutErr Unit) :
    (RunEvent.notifyMissionEnd ∈ run_with_monitor_events r → r = .ok ())
    ∧ (r = .ok () →
        ((run_with_monitor_events r).indexOf RunEvent.executeMission
            < (run_with_monitor_events r).indexOf RunEvent.notifyMissionEnd
          ∧ (run_with_monitor_events r).indexOf RunEvent.notifyMissionEnd
            < (run_with_monitor_events r).indexOf RunEvent.readVerdict
          ∧ (run_with_monitor_events r).indexOf RunEvent.readVerdict
            < (run_with_monitor_events r).indexOf (RunEvent.settleSleep (mkRat 1 2))
          ∧ (run_with_monitor_events r).indexOf (RunEvent.settleSleep (mkRat 1 2))
            < (run_with_monitor_events r).indexOf RunEvent.stopTimer)) := by
  cases r with
  | error e =>
    constructor
    · intro hmem
      simp [run_with_monitor_events] at hmem
    · intro h
      exact Except.noConfusion h
  | ok u =>
    cases u
    exact ⟨fun _ => rfl, fun _ => by refine ⟨?_, ?_, ?_, ?_⟩ <;> decide⟩

/-- Witness for C5 (amended) at the successful execute result. -/
theorem run_with_monitor_event_order_witness :
    RunEvent.notifyMissionEnd ∈ run_with_monitor_events (.ok ())
    ∧ (run_with_monitor_events (.ok ())).indexOf RunEvent.readVerdict
        < (run_with_monitor_events (.ok ())).indexOf (RunEvent.settleSleep (mkRat 1 2)) :=
  ⟨by decide, ((run_with_monitor_event_order (.ok ())).2 rfl).2.2.1⟩

/-- C10: a command parsed by `line_to_command` always carries
current-waypoint flag 0 and autocontinue flag 0, and the parsed command
is a function of the line's fields at positions 0, 2, 3 and 4-10 only —
in particular the current-flag field (position 1) never affects the
result. -/
theorem line_to_command_flags_and_current_ignored (s s' : String) (cmd : Command)
    (h0 : (pySplit s)[0]? = (pySplit s')[0]?)
    (h2 : (pySplit s)[2]? = (pySplit s')[2]?)
    (h3 : (pySplit s)[3]? = (pySplit s')[3]?)
    (h4 : (pySplit s)[4]? = (pySplit s')[4]?)
    (h5 : (pySplit s)[5]? = (pySplit s')[5]?)
    (h6 : (pySplit s)[6]? = (pySplit s')[6]?)
    (h7 : (pySplit s)[7]? = (pySplit s')[7]?)
    (h8 : (pySplit s)[8]? = (pySplit s')[8]?)
    (h9 : (pySplit s)[9]? = (pySplit s')[9]?)
    (h10 : (pySplit s)[10]? = (pySplit s')[10]?)
    (hcmd : Mission.line_to_command s = some cmd) :
    (cmd.current = 0 ∧ cmd.autocontinue = 0)
    ∧ Mission.line_to_command s = Mission.line_to_command s' := by
  constructor
  · simp only [Mission.line_to_command, Option.bind_eq_some, Option.some.injEq] at hcmd
    obtain ⟨a0, -, a2, -, a3, -, a4, -, a5, -, a6, -, a7, -, a8, -, a9, -, a10, -, hmk⟩ := hcmd
    subst hmk
    exact ⟨rfl, rfl⟩
  · simp only [Mission.line_to_command, h0, h2, h3, h4, h5, h6, h7, h8, h9, h10]

/-- Witness for C10 at a concrete WPL line and its current-flag variant. -/
theorem line_to_command_flags_witness :
    (sample_parsed_cmd.current = 0 ∧ sample_parsed_cmd.autocontinue = 0)
    ∧ Mission.line_to_command sample_wpl_line = Mission.line_to_command sample_wpl_line_alt :=
  line_to_command_flags_and_current_ignored sample_wpl_line sample_wpl_line_alt
    sample_parsed_cmd (by decide) (by decide) (by decide) (by decide) (by decide)
    (by decide) (by decide) (by decide) (by decide) (by decide) (by decide)

end Ardu
